import Mathlib

/-!
Verification development for the itch.io slideshow widget (src/amber.js).

The JavaScript source is shallowly embedded: every function of the widget
becomes a Lean definition of the same name, JS numbers holding indices become
`Int` (the JS `%` remainder operator, which truncates toward zero, is
`Int.tmod`), nullable values become `Option`, thrown exceptions become
`Except`/`Option`, and the outcomes of the two network fetches and the parsed
document are passed in explicitly as data.  Browser platform primitives that
the widget calls (the WHATWG `URL` constructor, the DOM query interface) are
modelled on exactly the fragment the widget uses.
-/

/-- One slide record: `{ title, desc, img, url }` (section 3 of amber.js). -/
structure Slide where
  title : String
  desc : String
  img : String
  url : String
deriving Repr, DecidableEq

/-- JS truthiness on strings: a string is falsy exactly when it is empty.
Returns the string itself when truthy, `none` otherwise. -/
def strTruthy (s : String) : Option String :=
  if s = "" then none else some s

/-- The JS expression `x || y` on strings. -/
def jsOrS (x y : String) : String :=
  if x = "" then y else x

/-- `DEFAULT_ITCH_URL` constant (line 13 of amber.js). -/
def DEFAULT_ITCH_URL : String := "https://ducky-dev.itch.io"

/-- `sampleSlides()` (lines 28-33 of amber.js): the hardcoded fallback list. -/
def sampleSlides : List Slide :=
  [ ⟨"Sample Game 1", "A sample game fallback", "BG.jpg", "https://ducky-dev.itch.io"⟩,
    ⟨"Sample Game 2", "Second sample", "BG.jpg", "https://ducky-dev.itch.io"⟩ ]

/-! ### Model of the WHATWG URL constructor (platform primitive used by absUrl) -/

/-- Characters allowed after the first character of a URL scheme. -/
def isSchemeTail (c : Char) : Bool :=
  c.isAlpha || c.isDigit || c = '+' || c = '-' || c = '.'

/-- Scan for `scheme ':' rest`; `acc` holds the scheme characters read so far,
reversed. -/
def schemeSplitAux (acc : List Char) : List Char → Option (List Char × List Char)
  | [] => none
  | c :: rest =>
    if c = ':' then some (acc.reverse, rest)
    else if isSchemeTail c then schemeSplitAux (c :: acc) rest
    else none

/-- Split a character list into a URL scheme and the remainder after `':'`. -/
def takeScheme : List Char → Option (List Char × List Char)
  | [] => none
  | c :: rest => if c.isAlpha then schemeSplitAux [c] rest else none

/-- A parsed absolute hierarchical URL `scheme://host/path`. -/
structure AbsURL where
  scheme : List Char
  host : List Char
  path : List Char
deriving Repr, DecidableEq

/-- Serialise an `AbsURL` back to its href string. -/
def hrefOf (u : AbsURL) : String :=
  String.mk (u.scheme ++ [':', '/', '/'] ++ u.host ++ u.path)

/-- Parse an absolute URL of the hierarchical form `scheme://host/path`
(the fragment of the WHATWG URL grammar the widget exercises: http-style
URLs; scheme and host are lowercased as the URL standard prescribes, an
empty path serialises as `/`). -/
def parseAbs (l : List Char) : Option AbsURL :=
  match takeScheme l with
  | none => none
  | some (sch, rest) =>
    match rest with
    | '/' :: '/' :: rest2 =>
      let host := rest2.takeWhile (fun c => c ≠ '/')
      let path := rest2.dropWhile (fun c => c ≠ '/')
      if host.isEmpty then none
      else some ⟨sch.map Char.toLower, host.map Char.toLower,
                 if path.isEmpty then ['/'] else path⟩
    | _ => none

/-- The directory part of a path: everything up to and including the last `/`. -/
def dirPath (p : List Char) : List Char :=
  (p.reverse.dropWhile (fun c => c ≠ '/')).reverse

/-- Model of the platform primitive `new URL(src, base).href` on http-style
URLs: an absolute `src` wins; otherwise `src` is resolved against `base`
(protocol-relative, root-relative or path-relative); `none` models the
constructor throwing. -/
def urlResolve (src base : String) : Option String :=
  match parseAbs src.toList with
  | some u => some (hrefOf u)
  | none =>
    match parseAbs base.toList with
    | none => none
    | some b =>
      match src.toList with
      | '/' :: '/' :: _ => (parseAbs (b.scheme ++ (':' :: src.toList))).map hrefOf
      | '/' :: rest => some (hrefOf ⟨b.scheme, b.host, '/' :: rest⟩)
      | [] => some (hrefOf b)
      | l => some (hrefOf ⟨b.scheme, b.host, dirPath b.path ++ l⟩)

/-- `absUrl(src, base)` (lines 35-37 of amber.js): `new URL(src, base).href`,
returning `src` unchanged when the constructor throws. -/
def absUrl (src base : String) : String :=
  (urlResolve src base).getD src

/-! ### Model of the parsed document (DOM fragment the scraper queries) -/

/-- An anchor element as the scraper sees it: its (reflected) `href`, its
`title` attribute (empty string when absent) and its text content. -/
structure Anchor where
  href : String
  titleAttr : String
  text : String
deriving Repr, DecidableEq

/-- A DOM node as the scraper queries it: the results of
`node.querySelector('a')`, `node.closest('a')`, `node.querySelector('img')`
(its `src`), `node.querySelector('.title')` / `('.description')` (their raw
text content), and — when the node is itself an anchor element, as in the
link-scan fallback — its own `href`. -/
structure Node where
  queryA : Option Anchor
  closestA : Option Anchor
  queryImgSrc : Option String
  queryTitle : Option String
  queryDesc : Option String
  selfHref : String
deriving Repr, DecidableEq

/-- The parsed document: `querySelectorAll` keyed by selector string, plus
the list of all anchor elements (`querySelectorAll('a')`). -/
structure HtmlDoc where
  bySelector : String → List Node
  anchors : List Node

/-! ### The scraping pipeline (tier 2 body, lines 65-90 of amber.js) -/

/-- One position of the regex `/itch.io/`: the unescaped `.` matches any
character. -/
def itchIoHere : List Char → Bool
  | 'i' :: 't' :: 'c' :: 'h' :: _ :: 'i' :: 'o' :: _ => true
  | _ => false

/-- `/itch.io/.test(s)`: search every position. -/
def itchIoSearch : List Char → Bool
  | [] => false
  | c :: rest => itchIoHere (c :: rest) || itchIoSearch rest

/-- Whether `p` begins the list `s` (character-wise). -/
def beginsWith : List Char → List Char → Bool
  | [], _ => true
  | _ :: _, [] => false
  | p :: ps, c :: cs => p = c && beginsWith ps cs

/-- `s.includes(pat)` on character lists. -/
def containsSeq (pat : List Char) : List Char → Bool
  | [] => pat.isEmpty
  | c :: rest => beginsWith pat (c :: rest) || containsSeq pat rest

/-- The anchor filter of line 75:
`/itch.io/.test(a.href) || a.href.includes('/games/')`. -/
def linkFilter (n : Node) : Bool :=
  itchIoSearch n.selfHref.toList || containsSeq "/games/".toList n.selfHref.toList

/-- The ordered structural selector variants (line 66 of amber.js). -/
def selectorList : List String :=
  [".game-column", ".game_column", ".game_cell", ".project_cell", ".game_cell_wrapper"]

/-- Lines 67-71: take the first selector with a non-empty result. -/
def firstMatch (doc : HtmlDoc) : List String → List Node
  | [] => []
  | s :: rest =>
    if (doc.bySelector s).isEmpty then firstMatch doc rest else doc.bySelector s

/-- Lines 67-76: structural selectors first, else the filtered anchor scan. -/
def selectNodes (doc : HtmlDoc) : List Node :=
  let ns := firstMatch doc selectorList
  if ns.isEmpty then doc.anchors.filter linkFilter else ns

/-- The map body of lines 78-86: extract one candidate slide from a node. -/
def mkCandidate (url : String) (node : Node) : Slide :=
  let a := node.queryA.orElse (fun _ => node.closestA)
  let href := match a with
    | some x => x.href
    | none => url
  let t1 := (node.queryTitle.map String.trim).bind strTruthy
  let t2 := (a.map Anchor.titleAttr).bind strTruthy
  let t3 := (a.map (fun x => x.text.trim)).bind strTruthy
  let title := ((t1.orElse (fun _ => t2)).orElse (fun _ => t3)).getD "Untitled"
  let desc := ((node.queryDesc.map String.trim).bind strTruthy).getD ""
  let img := match node.queryImgSrc with
    | some s => if s = "" then "BG.jpg" else absUrl s url
    | none => "BG.jpg"
  ⟨title, desc, img, href⟩

/-- Lines 78-87: first 12 nodes, mapped to candidates, candidates without a
truthy url discarded. -/
def parsedCandidates (url : String) (doc : HtmlDoc) : List Slide :=
  (((selectNodes doc).take 12).map (mkCandidate url)).filter
    (fun s => s.url != "")

/-! ### The three fetch tiers (fetchSlidesFromItch, lines 39-95) -/

/-- What `await res.json()` can yield at the proxy tier: a thrown parse
error, a JSON value that is not an array, or an array of slides. -/
inductive JsonBody where
  | parseErr
  | nonArray
  | arr (l : List Slide)
deriving Repr, DecidableEq

/-- Outcome of the proxy fetch: the fetch promise rejects, or a response
with a success flag and a body. -/
inductive ProxyOutcome where
  | netErr
  | resp (ok : Bool) (body : JsonBody)
deriving Repr, DecidableEq

/-- Outcome of the direct cross-origin fetch: rejection, or a response with
a success flag, whether `res.text()` succeeds, and the parsed document
(`DOMParser.parseFromString` never throws on `text/html`). -/
inductive DirectOutcome where
  | netErr
  | resp (ok : Bool) (textOk : Bool) (doc : HtmlDoc)

/-- The proxy tier (lines 40-55 of amber.js).  `Except.error` models an
exception thrown inside the `try` block; `Except.ok none` models falling
through past the early `return` (non-ok status, non-array body, or an empty
array). -/
def tier1 (p : ProxyOutcome) : Except Unit (Option (List Slide)) :=
  match p with
  | .netErr => .error ()
  | .resp ok body =>
    if ok then
      match body with
      | .parseErr => .error ()
      | .nonArray => .ok none
      | .arr l => if 0 < l.length then .ok (some l) else .ok none
    else .ok none

/-- The proxy tier after its surrounding `try/catch`: `some l` exactly when
the tier returns early with `l`; both a thrown exception and a fall-through
continue to tier 2. -/
def tier1Opt (p : ProxyOutcome) : Option (List Slide) :=
  match tier1 p with
  | .ok (some l) => some l
  | _ => none

/-- Body of the second `try` block (lines 58-90): direct fetch, status
check, text extraction, scrape; throws (`Except.error`) on network error,
non-ok status, text failure, or zero parsed candidates. -/
def tier2core (url : String) (d : DirectOutcome) : Except Unit (List Slide) :=
  match d with
  | .netErr => .error ()
  | .resp ok textOk doc =>
    if !ok then .error ()
    else if !textOk then .error ()
    else
      let parsed := parsedCandidates url doc
      if parsed.length = 0 then .error () else .ok parsed

/-- The second tier with its `catch` (lines 91-94): any throw degrades to
the hardcoded `sampleSlides()`. -/
def tier2 (url : String) (d : DirectOutcome) : List Slide :=
  match tier2core url d with
  | .error _ => sampleSlides
  | .ok l => l

/-- `fetchSlidesFromItch(url)` (lines 39-95), as a function of the url and
the outcomes of the two fetches. -/
def fetchSlidesFromItch (url : String) (p : ProxyOutcome) (d : DirectOutcome) : List Slide :=
  match tier1Opt p with
  | some l => l
  | none => tier2 url d

/-! ### Controller state, view and timers -/

/-- The DOM render targets the widget writes to (title, description, image
src and alt, link href). -/
structure View where
  title : String
  desc : String
  imgSrc : String
  imgAlt : String
  linkHref : String
deriving Repr, DecidableEq

/-- The module-level mutable state of amber.js (`slides`, `current`,
`timer`, `itchUrl`, lines 23-26), together with the browser's interval
table: `activeTimers` is the list of live interval handles and
`nextHandle` the next handle `setInterval` will hand out. -/
structure AppState where
  slides : List Slide
  current : Int
  timer : Option Nat
  itchUrl : String
  activeTimers : List Nat
  nextHandle : Nat
deriving Repr, DecidableEq

/-- The index computation of line 99: `(i + slides.length) % slides.length`
with the JS `%`, which truncates toward zero (`Int.tmod`). -/
def jsIndex (i : Int) (n : Nat) : Int :=
  (i + n).tmod n

/-- JS array subscripting `slides[i]`: `undefined` (`none`) outside bounds. -/
def listGetInt (l : List Slide) (i : Int) : Option Slide :=
  if 0 ≤ i then l[i.toNat]? else none

/-- `showSlide(i)` (lines 97-119): early return on an empty list, index
normalization, animation restart, render.  `none` models the `TypeError`
thrown when `slides[current]` is `undefined` (note that the assignment to
`current` on line 99 happens before the failing field access; no event
handler of the widget reaches that path). -/
def showSlide (i : Int) (st : AppState) (v : View) : Option (AppState × View) :=
  if st.slides.length = 0 then some (st, v)
  else
    let idx := jsIndex i st.slides.length
    match listGetInt st.slides idx with
    | none => none
    | some s =>
      some ({ st with current := idx },
            { title := jsOrS s.title ""
              desc := jsOrS s.desc ""
              imgSrc := jsOrS s.img "BG.jpg"
              imgAlt := jsOrS s.title "Slide image"
              linkHref := jsOrS s.url st.itchUrl })

/-- `nextSlide()` (line 121). -/
def nextSlide (st : AppState) (v : View) : Option (AppState × View) :=
  showSlide (st.current + 1) st v

/-- `prevSlide()` (line 122). -/
def prevSlide (st : AppState) (v : View) : Option (AppState × View) :=
  showSlide (st.current - 1) st v

/-- `stopAuto()` (lines 128-130): clear the interval if one is registered. -/
def stopAuto (st : AppState) : AppState :=
  match st.timer with
  | some h => { st with activeTimers := st.activeTimers.erase h, timer := none }
  | none => st

/-- `startAuto()` (lines 124-127): stop any existing timer, then register a
fresh interval. -/
def startAuto (st : AppState) : AppState :=
  let st1 := stopAuto st
  { st1 with
      timer := some st1.nextHandle
      activeTimers := st1.activeTimers ++ [st1.nextHandle]
      nextHandle := st1.nextHandle + 1 }

/-- `loadSlides(forUrl)` (lines 132-137): update `itchUrl` (a falsy
argument keeps the previous url), fetch, render slide 0, restart the
timer. -/
def loadSlides (forUrl : Option String) (p : ProxyOutcome) (d : DirectOutcome)
    (st : AppState) (v : View) : Option (AppState × View) :=
  let url := match forUrl with
    | some s => jsOrS s st.itchUrl
    | none => st.itchUrl
  let sl := fetchSlidesFromItch url p d
  (showSlide 0 { st with itchUrl := url, slides := sl } v).map
    (fun r => (startAuto r.1, r.2))

/-! ### The F2 prompt handler and URL normalization (lines 143-151) -/

/-- The test `/^https?:\/\//i.test(s)` of line 149. -/
def matchHttpScheme (s : String) : Bool :=
  match s.toList.map Char.toLower with
  | 'h' :: 't' :: 't' :: 'p' :: ':' :: '/' :: '/' :: _ => true
  | 'h' :: 't' :: 't' :: 'p' :: 's' :: ':' :: '/' :: '/' :: _ => true
  | _ => false

/-- `s.replace(/^\/\//, '')`: strip one leading `//` if present. -/
def stripProtoRel (s : String) : String :=
  match s.toList with
  | '/' :: '/' :: rest => String.mk rest
  | _ => s

/-- Line 149: prefix `https://` unless an http(s) scheme is already there. -/
def normalizeUrl (input : String) : String :=
  if matchHttpScheme input then input else "https://" ++ stripProtoRel input

/-- The F2 handler's decision (lines 145-151): the URL handed to
`loadSlides`, or `none` when the prompt is cancelled (`null`) or returns a
falsy (empty) string, in which case no load happens. -/
def f2HandlerUrl (input : Option String) : Option String :=
  match input with
  | none => none
  | some s => if s = "" then none else some (normalizeUrl s)

/-! ### Event handlers (lines 140-165) -/

/-- The external events the widget reacts to.  Events that can trigger a
fetch carry the outcomes of the two fetch attempts. -/
inductive Event where
  | keyRight
  | keyLeft
  | keyF2 (input : Option String) (p : ProxyOutcome) (d : DirectOutcome)
  | mouseEnter
  | mouseLeave
  | pageLoad (p : ProxyOutcome) (d : DirectOutcome)
  | tick

/-- One event-handler execution (lines 140-165):  arrow keys navigate and
restart the timer, F2 may reload from a prompted URL, hover stops or
restarts the timer, page load fetches the default URL, and a timer tick
advances one slide. -/
def step (e : Event) (st : AppState) (v : View) : Option (AppState × View) :=
  match e with
  | .keyRight => (nextSlide st v).map (fun r => (startAuto r.1, r.2))
  | .keyLeft => (prevSlide st v).map (fun r => (startAuto r.1, r.2))
  | .keyF2 input p d =>
    match f2HandlerUrl input with
    | none => some (st, v)
    | some u => loadSlides (some u) p d st v
  | .mouseEnter => some (stopAuto st, v)
  | .mouseLeave => some (startAuto st, v)
  | .pageLoad p d => loadSlides (some DEFAULT_ITCH_URL) p d st v
  | .tick => nextSlide st v

/-- The index invariant of the spec: whenever the slide list is non-empty,
`current` is a valid index into it. -/
def IndexInv (st : AppState) : Prop :=
  st.slides ≠ [] → 0 ≤ st.current ∧ st.current < st.slides.length

instance (st : AppState) : Decidable (IndexInv st) := by
  unfold IndexInv; infer_instance

/-- The timer bookkeeping invariant: the browser's live intervals are
exactly the one registered in `timer` (if any), and the next handle is
fresh. -/
def TimerInv (st : AppState) : Prop :=
  st.activeTimers = (match st.timer with | some h => [h] | none => [])

instance (st : AppState) : Decidable (TimerInv st) := by
  unfold TimerInv; infer_instance

/-! ## Helper lemmas -/

lemma jsIndex_bounds (i : Int) (n : Nat) (hn : 0 < n) (hi : -(n : Int) ≤ i) :
    0 ≤ jsIndex i n ∧ jsIndex i n < (n : Int) := by
  unfold jsIndex
  have hn' : (0 : Int) < n := by exact_mod_cast hn
  have h0 : (0 : Int) ≤ i + n := by omega
  exact ⟨Int.tmod_nonneg _ h0, Int.tmod_lt_of_pos _ hn'⟩

lemma tmod_small_neg {i : Int} {n : Nat} (h1 : -(n : Int) < i) (h2 : i < 0) :
    Int.tmod i n = i := by
  have hd : i.tdiv n = 0 := by
    have ha : (-i).tdiv (n : Int) = 0 :=
      Int.tdiv_eq_zero_of_lt (by omega) (by omega)
    have hb : (-i).tdiv (n : Int) = -(i.tdiv n) := Int.neg_tdiv i n
    omega
  rw [Int.tmod_def, hd]
  ring

lemma jsIndex_eq_wrap (i : Int) (n : Nat) (hn : 0 < n) (hi : -(n : Int) ≤ i) :
    jsIndex i n = (Int.tmod i n + n).tmod n := by
  have hn' : (0 : Int) < n := by exact_mod_cast hn
  unfold jsIndex
  have key : ∀ a : Int, (a + n) % n = a % n := fun a => by
    have h := Int.add_mul_emod_self_left (a := a) (b := (n : Int)) (c := 1)
    rw [mul_one] at h
    exact h
  rcases le_or_lt 0 i with hpos | hneg
  · have h2 : Int.tmod i n = i % n := Int.tmod_eq_emod hpos (by omega)
    have h3 : 0 ≤ i % n := Int.emod_nonneg i (by omega)
    rw [h2, Int.tmod_eq_emod (by omega) (by omega),
        Int.tmod_eq_emod (by omega) (by omega), key, key,
        Int.emod_emod_of_dvd _ dvd_rfl]
  · rcases eq_or_lt_of_le hi with heq | hlt
    · have hieq : i = -(n : Int) := heq.symm
      subst hieq
      rw [show -(n : Int) + n = 0 by ring, Int.zero_tmod, Int.neg_tmod_self]
      rw [zero_add, Int.tmod_self]
    · rw [tmod_small_neg hlt hneg]

lemma listGetInt_valid (l : List Slide) (i : Int) (h0 : 0 ≤ i) (h1 : i < l.length) :
    ∃ s, listGetInt l i = some s := by
  unfold listGetInt
  rw [if_pos h0]
  have hlt : i.toNat < l.length := by omega
  exact ⟨l[i.toNat], List.getElem?_eq_getElem hlt⟩

lemma showSlide_spec (i : Int) (st : AppState) (v : View)
    (hn : 0 < st.slides.length) (hi : -(st.slides.length : Int) ≤ i) :
    ∃ st' v', showSlide i st v = some (st', v') ∧
      st'.slides = st.slides ∧ st'.timer = st.timer ∧ st'.itchUrl = st.itchUrl ∧
      st'.activeTimers = st.activeTimers ∧ st'.nextHandle = st.nextHandle ∧
      st'.current = jsIndex i st.slides.length ∧
      0 ≤ st'.current ∧ st'.current < (st.slides.length : Int) := by
  obtain ⟨hlo, hhi⟩ := jsIndex_bounds i st.slides.length hn hi
  obtain ⟨s, hs⟩ := listGetInt_valid st.slides _ hlo hhi
  refine ⟨{ st with current := jsIndex i st.slides.length },
    { title := jsOrS s.title "", desc := jsOrS s.desc "",
      imgSrc := jsOrS s.img "BG.jpg", imgAlt := jsOrS s.title "Slide image",
      linkHref := jsOrS s.url st.itchUrl }, ?_,
    rfl, rfl, rfl, rfl, rfl, rfl, hlo, hhi⟩
  unfold showSlide
  rw [if_neg (by omega)]
  simp only [hs]

lemma showSlide_empty (i : Int) (st : AppState) (v : View) (h : st.slides = []) :
    showSlide i st v = some (st, v) := by
  unfold showSlide
  rw [if_pos (by simp [h])]

lemma tier1Opt_eq_some_iff (p : ProxyOutcome) (l : List Slide) :
    tier1Opt p = some l ↔ (p = .resp true (.arr l) ∧ 0 < l.length) := by
  cases p with
  | netErr => simp [tier1Opt, tier1]
  | resp ok body =>
    cases ok with
    | false => simp [tier1Opt, tier1]
    | true =>
      cases body with
      | parseErr => simp [tier1Opt, tier1]
      | nonArray => simp [tier1Opt, tier1]
      | arr m =>
        by_cases hm : 0 < m.length
        · simp only [tier1Opt, tier1, if_pos hm, if_true]
          constructor
          · intro h
            cases h
            exact ⟨rfl, hm⟩
          · rintro ⟨h, -⟩
            cases h
            rfl
        · simp only [tier1Opt, tier1, if_neg hm, if_true]
          constructor
          · intro h
            cases h
          · rintro ⟨h, hl⟩
            cases h
            omega

lemma tier2core_pos (url : String) (d : DirectOutcome) (l : List Slide)
    (h : tier2core url d = .ok l) : 0 < l.length := by
  cases d with
  | netErr => simp [tier2core] at h
  | resp ok textOk doc =>
    cases ok <;> cases textOk <;> simp [tier2core] at h
    split at h
    · cases h
    · rename_i hne
      cases h
      exact List.length_pos.mpr hne

lemma tier2_pos (url : String) (d : DirectOutcome) : 0 < (tier2 url d).length := by
  unfold tier2
  cases h : tier2core url d with
  | error e => simp [sampleSlides]
  | ok l => exact tier2core_pos url d l h

lemma fetch_pos (url : String) (p : ProxyOutcome) (d : DirectOutcome) :
    0 < (fetchSlidesFromItch url p d).length := by
  unfold fetchSlidesFromItch
  cases h : tier1Opt p with
  | none => exact tier2_pos url d
  | some l => exact ((tier1Opt_eq_some_iff p l).1 h).2

lemma stopAuto_slides (st : AppState) : (stopAuto st).slides = st.slides := by
  unfold stopAuto; cases st.timer <;> rfl

lemma stopAuto_current (st : AppState) : (stopAuto st).current = st.current := by
  unfold stopAuto; cases st.timer <;> rfl

lemma stopAuto_itchUrl (st : AppState) : (stopAuto st).itchUrl = st.itchUrl := by
  unfold stopAuto; cases st.timer <;> rfl

lemma stopAuto_timer (st : AppState) : (stopAuto st).timer = none := by
  unfold stopAuto
  cases h : st.timer with
  | none => exact h
  | some hh => rfl

lemma startAuto_slides (st : AppState) : (startAuto st).slides = st.slides := by
  unfold startAuto; rw [stopAuto_slides]

lemma startAuto_current (st : AppState) : (startAuto st).current = st.current := by
  unfold startAuto; rw [stopAuto_current]

lemma loadSlides_eq (forUrl : Option String) (p : ProxyOutcome) (d : DirectOutcome)
    (st : AppState) (v : View) :
    loadSlides forUrl p d st v =
      (showSlide 0 { st with
          itchUrl := match forUrl with
            | some s => jsOrS s st.itchUrl
            | none => st.itchUrl,
          slides := fetchSlidesFromItch (match forUrl with
            | some s => jsOrS s st.itchUrl
            | none => st.itchUrl) p d } v).map
        (fun r => (startAuto r.1, r.2)) := rfl

lemma loadSlides_spec (forUrl : Option String) (p : ProxyOutcome) (d : DirectOutcome)
    (st : AppState) (v : View) :
    ∃ st' v', loadSlides forUrl p d st v = some (st', v') ∧
      st'.slides ≠ [] ∧ 0 ≤ st'.current ∧ st'.current < (st'.slides.length : Int) := by
  rw [loadSlides_eq]
  generalize (match forUrl with
    | some s => jsOrS s st.itchUrl
    | none => st.itchUrl) = u
  have hp : 0 < (fetchSlidesFromItch u p d).length := fetch_pos u p d
  obtain ⟨st2, v2, heq, hsl, -, -, -, -, -, h0, h1⟩ :=
    showSlide_spec 0 { st with itchUrl := u, slides := fetchSlidesFromItch u p d } v hp
      (by simp only []; omega)
  refine ⟨startAuto st2, v2, ?_, ?_, ?_, ?_⟩
  · rw [heq]
    rfl
  · rw [startAuto_slides, hsl]
    simp only []
    intro hc
    rw [hc] at hp
    simp at hp
  · rw [startAuto_current]
    exact h0
  · rw [startAuto_current, startAuto_slides, hsl]
    simp only [] at h1
    exact h1

lemma stopAuto_noop (st : AppState) (h : st.timer = none) : stopAuto st = st := by
  unfold stopAuto
  rw [h]

lemma startAuto_timerInv (st : AppState) (h : TimerInv st) :
    TimerInv (startAuto st) ∧ (startAuto st).activeTimers.length = 1 := by
  unfold TimerInv at h ⊢
  unfold startAuto stopAuto
  cases ht : st.timer with
  | none =>
    rw [ht] at h
    simp [h]
  | some k =>
    rw [ht] at h
    simp [h, List.erase]

lemma nav_case (i : Int) (st : AppState) (v : View) (h : IndexInv st)
    (hi : st.slides = [] ∨ -(st.slides.length : Int) ≤ i) :
    ∃ st' v', showSlide i st v = some (st', v') ∧ IndexInv st' ∧
      (st'.slides = [] → v' = v) ∧ st'.slides = st.slides := by
  by_cases hempty : st.slides = []
  · rw [showSlide_empty i st v hempty]
    exact ⟨st, v, rfl, h, fun _ => rfl, rfl⟩
  · have hn : 0 < st.slides.length := List.length_pos.mpr hempty
    rcases hi with hc | hge
    · exact absurd hc hempty
    obtain ⟨st', v', heq, hsl, -, -, -, -, hcur, h0, h1⟩ := showSlide_spec i st v hn hge
    refine ⟨st', v', heq, ?_, ?_, hsl⟩
    · intro hne
      exact ⟨h0, by rw [hsl]; exact h1⟩
    · intro hc
      rw [hsl] at hc
      exact absurd hc hempty

/-! ## Claims -/

/-- Claim C1, counterexample: for the out-of-range negative input `i = -3` on
a slide list of length `n = 2`, line 99 computes `(i + n) % n` with the JS
truncated remainder, which yields `-1`; the claimed formula
`((i % n) + n) % n` yields `1`, so the computed index is neither the claimed
value nor valid, and the subsequent render throws (`showSlide` returns
`none`). -/
theorem c1_counterexample :
    jsIndex (-3) 2 = -1 ∧
    (Int.tmod (-3) 2 + 2).tmod 2 = 1 ∧
    jsIndex (-3) 2 ≠ (Int.tmod (-3) 2 + 2).tmod 2 ∧
    ¬ 0 ≤ jsIndex (-3) 2 ∧
    showSlide (-3)
      ⟨[⟨"A", "", "i", "u"⟩, ⟨"B", "", "i", "u"⟩], 0, none,
        "https://ducky-dev.itch.io", [], 0⟩
      ⟨"", "", "", "", ""⟩ = none := by
  decide

/-- Claim C1 (amended): for every non-empty slide list of length `n` and
every integer `i` with `-n ≤ i` — which covers every call the widget makes
(`0`, `current + 1`, `current - 1` with `0 ≤ current < n`) — `showSlide(i)`
sets the current index to `((i % n) + n) % n`, a valid index in `[0, n)`;
for `i < -n` the computed index is negative and the render throws. -/
theorem c1_showSlide_wraps (i : Int) (st : AppState) (v : View)
    (hn : 0 < st.slides.length) (hi : -(st.slides.length : Int) ≤ i) :
    ∃ st' v', showSlide i st v = some (st', v') ∧
      st'.current = (Int.tmod i st.slides.length + st.slides.length).tmod st.slides.length ∧
      0 ≤ st'.current ∧ st'.current < (st.slides.length : Int) := by
  obtain ⟨st', v', heq, -, -, -, -, -, hcur, h0, h1⟩ := showSlide_spec i st v hn hi
  exact ⟨st', v', heq,
    by rw [hcur, jsIndex_eq_wrap i st.slides.length hn hi], h0, h1⟩

/-- Witness for C1 at the in-range negative input `i = -1` on two slides. -/
theorem c1_witness :
    ∃ st' v', showSlide (-1)
        ⟨[⟨"A", "", "i", "u"⟩, ⟨"B", "", "i", "u"⟩], 0, none,
          "https://ducky-dev.itch.io", [], 0⟩
        ⟨"", "", "", "", ""⟩ = some (st', v') ∧
      st'.current = (Int.tmod (-1) 2 + 2).tmod 2 ∧
      0 ≤ st'.current ∧ st'.current < 2 :=
  c1_showSlide_wraps (-1) _ _ (by decide) (by decide)

/-- Claim C2: `fetchSlidesFromItch` is total over every input URL and every
outcome of the proxy and the direct fetch (network error, non-success
status, malformed body, parse failure): it returns an ordinary value — no
error escapes, every throw is modelled and caught inside the tiers — and
that value is always a non-empty array. -/
theorem c2_fetch_total_nonempty (url : String) (p : ProxyOutcome) (d : DirectOutcome) :
    0 < (fetchSlidesFromItch url p d).length :=
  fetch_pos url p d

/-- Claim C5: `showSlide` on an empty slide list performs no render — state
and view are returned unchanged — and does not throw (the result is `some`,
never the `none` that models a thrown exception). -/
theorem c5_showSlide_empty_noop (i : Int) (st : AppState) (v : View)
    (h : st.slides = []) : showSlide i st v = some (st, v) :=
  showSlide_empty i st v h

/-- Witness for C5 at a concrete empty state. -/
theorem c5_witness :
    showSlide 5 ⟨[], 3, none, "https://ducky-dev.itch.io", [], 0⟩
        ⟨"t", "d", "i", "a", "l"⟩ =
      some (⟨[], 3, none, "https://ducky-dev.itch.io", [], 0⟩,
            ⟨"t", "d", "i", "a", "l"⟩) :=
  c5_showSlide_empty_noop 5 _ _ rfl

/-- Claim C6: the proxy tier's result is returned as-is exactly when the
proxy response is ok and decodes to a non-empty array; in every other case
(network error, non-ok status, parse failure, non-array, empty array) the
operation proceeds to the direct fetch tier. -/
theorem c6_proxy_first (url : String) (p : ProxyOutcome) (d : DirectOutcome) :
    (∀ l, tier1Opt p = some l ↔ (p = .resp true (.arr l) ∧ 0 < l.length)) ∧
    (∀ l, tier1Opt p = some l → fetchSlidesFromItch url p d = l) ∧
    (tier1Opt p = none → fetchSlidesFromItch url p d = tier2 url d) := by
  refine ⟨fun l => tier1Opt_eq_some_iff p l, fun l h => ?_, fun h => ?_⟩
  · unfold fetchSlidesFromItch
    rw [h]
  · unfold fetchSlidesFromItch
    rw [h]

/-- Witness for C6: a successful non-empty proxy response is returned
as-is; a rejected proxy fetch escalates to tier 2. -/
theorem c6_witness :
    fetchSlidesFromItch "https://x" (.resp true (.arr [⟨"A", "d", "i.png", "https://x"⟩]))
        .netErr = [⟨"A", "d", "i.png", "https://x"⟩] ∧
    fetchSlidesFromItch "https://x" .netErr .netErr = tier2 "https://x" .netErr := by
  constructor
  · exact (c6_proxy_first "https://x" _ .netErr).2.1 _ (by decide)
  · exact (c6_proxy_first "https://x" .netErr .netErr).2.2 (by decide)

/-- Claim C7, counterexample: the empty string can be entered at the prompt
and does not start with an http(s) scheme, yet no value at all is passed to
`loadSlides` — the handler's truthiness guard skips the load, so the claim's
universal "for every string entered" fails at `""`. -/
theorem c7_counterexample :
    matchHttpScheme "" = false ∧ f2HandlerUrl (some "") = none := by
  decide

/-- Claim C7 (amended): for every *non-empty* string entered at the
URL-change prompt that does not match `/^https?:\/\//i`, the value passed
to `loadSlides` is the input prefixed with `https://` after one leading
`//` is stripped. -/
theorem c7_prompt_normalizes (s : String) (hne : s ≠ "")
    (hsch : matchHttpScheme s = false) :
    f2HandlerUrl (some s) = some ("https://" ++ stripProtoRel s) ∧
    normalizeUrl s = "https://" ++ stripProtoRel s := by
  have hn : normalizeUrl s = "https://" ++ stripProtoRel s := by
    unfold normalizeUrl
    simp [hsch]
  constructor
  · show (if s = "" then none else some (normalizeUrl s)) = some ("https://" ++ stripProtoRel s)
    rw [if_neg hne, hn]
  · exact hn

/-- Witness for C7: the bare hostname of the spec normalizes to the
https URL. -/
theorem c7_witness :
    f2HandlerUrl (some "example.itch.io") = some "https://example.itch.io" := by
  have h := (c7_prompt_normalizes "example.itch.io" (by decide) (by decide)).1
  rw [h]
  rfl

/-- Claim C9: `startAuto` always cancels the registered timer before
scheduling a new one, so under the timer bookkeeping invariant one
`startAuto` — and likewise two consecutive ones — leaves exactly one active
interval; `stopAuto` with no registered timer is a no-op that does not
throw, and `stopAuto` is idempotent. -/
theorem c9_timer_discipline (st : AppState) :
    (TimerInv st →
      TimerInv (startAuto st) ∧ (startAuto st).activeTimers.length = 1 ∧
      TimerInv (startAuto (startAuto st)) ∧
      (startAuto (startAuto st)).activeTimers.length = 1) ∧
    (st.timer = none → stopAuto st = st) ∧
    stopAuto (stopAuto st) = stopAuto st := by
  refine ⟨fun h => ?_, fun h => stopAuto_noop st h, stopAuto_noop _ (stopAuto_timer st)⟩
  obtain ⟨h1, h2⟩ := startAuto_timerInv st h
  obtain ⟨h3, h4⟩ := startAuto_timerInv _ h1
  exact ⟨h1, h2, h3, h4⟩

/-- Witness for C9 on a concrete idle state. -/
theorem c9_witness :
    TimerInv (startAuto ⟨[], 0, none, "u", [], 0⟩) ∧
    (startAuto (startAuto ⟨[], 0, none, "u", [], 0⟩)).activeTimers.length = 1 ∧
    stopAuto ⟨[], 0, none, "u", [], 0⟩ = ⟨[], 0, none, "u", [], 0⟩ := by
  have h := c9_timer_discipline ⟨[], 0, none, "u", [], 0⟩
  have h1 := h.1 (by decide)
  exact ⟨h1.1, h1.2.2.2, h.2.1 rfl⟩

/-- Claim C3: every operation reachable from the event handlers — loading,
arrow-key navigation, the F2 reload, hover pause/resume, and the
auto-advance tick — executes without throwing and preserves the invariant
that a non-empty slide list has a valid current index; and whenever the
slide list ends up empty, the view is untouched (no render occurred). -/
theorem c3_handlers_preserve_invariant (e : Event) (st : AppState) (v : View)
    (h : IndexInv st) :
    ∃ st' v', step e st v = some (st', v') ∧ IndexInv st' ∧
      (st'.slides = [] → v' = v) := by
  cases e with
  | keyRight =>
    have hi : st.slides = [] ∨ -(st.slides.length : Int) ≤ st.current + 1 := by
      by_cases hempty : st.slides = []
      · exact Or.inl hempty
      · have h0 := (h hempty).1
        right
        omega
    obtain ⟨st1, v1, heq, hinv, hrender, hsl⟩ := nav_case (st.current + 1) st v h hi
    refine ⟨startAuto st1, v1, ?_, ?_, ?_⟩
    · show (showSlide (st.current + 1) st v).map (fun r => (startAuto r.1, r.2)) =
        some (startAuto st1, v1)
      rw [heq]
      rfl
    · unfold IndexInv at hinv ⊢
      rw [startAuto_slides, startAuto_current]
      exact hinv
    · intro hc
      rw [startAuto_slides] at hc
      exact hrender hc
  | keyLeft =>
    have hi : st.slides = [] ∨ -(st.slides.length : Int) ≤ st.current - 1 := by
      by_cases hempty : st.slides = []
      · exact Or.inl hempty
      · have h0 := (h hempty).1
        have hn : 0 < st.slides.length := List.length_pos.mpr hempty
        right
        omega
    obtain ⟨st1, v1, heq, hinv, hrender, hsl⟩ := nav_case (st.current - 1) st v h hi
    refine ⟨startAuto st1, v1, ?_, ?_, ?_⟩
    · show (showSlide (st.current - 1) st v).map (fun r => (startAuto r.1, r.2)) =
        some (startAuto st1, v1)
      rw [heq]
      rfl
    · unfold IndexInv at hinv ⊢
      rw [startAuto_slides, startAuto_current]
      exact hinv
    · intro hc
      rw [startAuto_slides] at hc
      exact hrender hc
  | keyF2 input p d =>
    cases hf : f2HandlerUrl input with
    | none =>
      refine ⟨st, v, ?_, h, fun _ => rfl⟩
      show (match f2HandlerUrl input with
        | none => some (st, v)
        | some u => loadSlides (some u) p d st v) = some (st, v)
      rw [hf]
    | some u =>
      obtain ⟨st', v', heq, hne, h0, h1⟩ := loadSlides_spec (some u) p d st v
      refine ⟨st', v', ?_, fun _ => ⟨h0, h1⟩, fun hc => absurd hc hne⟩
      show (match f2HandlerUrl input with
        | none => some (st, v)
        | some u => loadSlides (some u) p d st v) = some (st', v')
      rw [hf]
      exact heq
  | mouseEnter =>
    refine ⟨stopAuto st, v, rfl, ?_, fun _ => rfl⟩
    unfold IndexInv at h ⊢
    rw [stopAuto_slides, stopAuto_current]
    exact h
  | mouseLeave =>
    refine ⟨startAuto st, v, rfl, ?_, fun _ => rfl⟩
    unfold IndexInv at h ⊢
    rw [startAuto_slides, startAuto_current]
    exact h
  | pageLoad p d =>
    obtain ⟨st', v', heq, hne, h0, h1⟩ := loadSlides_spec (some DEFAULT_ITCH_URL) p d st v
    exact ⟨st', v', heq, fun _ => ⟨h0, h1⟩, fun hc => absurd hc hne⟩
  | tick =>
    have hi : st.slides = [] ∨ -(st.slides.length : Int) ≤ st.current + 1 := by
      by_cases hempty : st.slides = []
      · exact Or.inl hempty
      · have h0 := (h hempty).1
        right
        omega
    obtain ⟨st1, v1, heq, hinv, hrender, hsl⟩ := nav_case (st.current + 1) st v h hi
    exact ⟨st1, v1, heq, hinv, hrender⟩

/-- Witness for C3: the auto-advance tick on the initial empty state. -/
theorem c3_witness :
    ∃ st' v', step Event.tick ⟨[], 0, none, "https://ducky-dev.itch.io", [], 0⟩
        ⟨"", "", "", "", ""⟩ = some (st', v') ∧ IndexInv st' ∧
      (st'.slides = [] → v' = ⟨"", "", "", "", ""⟩) :=
  c3_handlers_preserve_invariant Event.tick _ _ (by decide)

/-- Claim C4: when the proxy tier fails and the direct fetch yields markup
in which no structural selector matches and no hyperlink passes the
itch.io/game-path filter, `fetchSlidesFromItch` returns exactly the
two-entry fallback list titled "Sample Game 1" and "Sample Game 2", each
pointing at the default profile URL. -/
theorem c4_fallback_on_empty_scrape (url : String) (p : ProxyOutcome) (doc : HtmlDoc)
    (hp : tier1Opt p = none)
    (hsel : ∀ s ∈ selectorList, doc.bySelector s = [])
    (hanch : ∀ n ∈ doc.anchors, linkFilter n = false) :
    fetchSlidesFromItch url p (.resp true true doc) = sampleSlides ∧
    sampleSlides =
      [⟨"Sample Game 1", "A sample game fallback", "BG.jpg", DEFAULT_ITCH_URL⟩,
       ⟨"Sample Game 2", "Second sample", "BG.jpg", DEFAULT_ITCH_URL⟩] := by
  have h1 := hsel ".game-column" (by simp [selectorList])
  have h2 := hsel ".game_column" (by simp [selectorList])
  have h3 := hsel ".game_cell" (by simp [selectorList])
  have h4 := hsel ".project_cell" (by simp [selectorList])
  have h5 := hsel ".game_cell_wrapper" (by simp [selectorList])
  have hfm : firstMatch doc selectorList = [] := by
    simp [firstMatch, selectorList, h1, h2, h3, h4, h5]
  have hsn : selectNodes doc = [] := by
    unfold selectNodes
    rw [hfm]
    simp only [List.isEmpty_nil, if_true]
    exact List.filter_eq_nil_iff.mpr (fun n hn => by simp [hanch n hn])
  have hpc : parsedCandidates url doc = [] := by
    unfold parsedCandidates
    rw [hsn]
    rfl
  constructor
  · unfold fetchSlidesFromItch
    rw [hp]
    unfold tier2 tier2core
    simp [hpc]
  · rfl

/-- Witness for C4 on a concrete empty document. -/
theorem c4_witness :
    fetchSlidesFromItch "https://someone.example" ProxyOutcome.netErr
        (DirectOutcome.resp true true ⟨fun _ => [], []⟩) = sampleSlides ∧
    sampleSlides =
      [⟨"Sample Game 1", "A sample game fallback", "BG.jpg", DEFAULT_ITCH_URL⟩,
       ⟨"Sample Game 2", "Second sample", "BG.jpg", DEFAULT_ITCH_URL⟩] :=
  c4_fallback_on_empty_scrape "https://someone.example" ProxyOutcome.netErr
    ⟨fun _ => [], []⟩ (by decide) (fun s hs => rfl) (fun n hn => by cases hn)

/-- Claim C8: a scraped node whose image yields a (truthy) source string
produces a slide whose `img` field is that source resolved against the
fetched page's own URL; concretely, `img/a.png` on the page
`https://site.example/list` resolves to `https://site.example/img/a.png`. -/
theorem c8_img_resolved (url : String) (node : Node) (src : String)
    (himg : node.queryImgSrc = some src) (hsrc : src ≠ "") :
    (mkCandidate url node).img = absUrl src url ∧
    absUrl "img/a.png" "https://site.example/list" = "https://site.example/img/a.png" := by
  constructor
  · unfold mkCandidate
    rw [himg]
    simp [hsrc]
  · decide

/-- Witness for C8 on a concrete node carrying the spec's relative image
source. -/
theorem c8_witness :
    (mkCandidate "https://site.example/list"
        ⟨none, none, some "img/a.png", none, none, ""⟩).img =
      "https://site.example/img/a.png" := by
  have h := c8_img_resolved "https://site.example/list"
    ⟨none, none, some "img/a.png", none, none, ""⟩ "img/a.png" rfl (by decide)
  rw [h.1, h.2]

/-- Claim C10: a matched node with no nested or ancestor anchor yields a
candidate whose url is the source page URL itself; hence when the matched
nodes carry no anchors and the source URL is non-empty, the url filter
discards nothing and each of the first 12 matched nodes produces exactly
one slide, whose url is the source URL. -/
theorem c10_anchorless_nodes_kept (url : String) (doc : HtmlDoc)
    (hurl : url ≠ "")
    (hna : ∀ n ∈ selectNodes doc, n.queryA = none ∧ n.closestA = none) :
    (∀ n : Node, n.queryA = none → n.closestA = none → (mkCandidate url n).url = url) ∧
    parsedCandidates url doc = ((selectNodes doc).take 12).map (mkCandidate url) ∧
    (parsedCandidates url doc).length = min 12 (selectNodes doc).length ∧
    ∀ s ∈ parsedCandidates url doc, s.url = url := by
  have hone : ∀ n : Node, n.queryA = none → n.closestA = none →
      (mkCandidate url n).url = url := by
    intro n hq hc
    unfold mkCandidate
    rw [hq, hc]
    rfl
  have hall : ∀ s ∈ ((selectNodes doc).take 12).map (mkCandidate url), s.url = url := by
    intro s hs
    obtain ⟨n, hn, rfl⟩ := List.mem_map.1 hs
    obtain ⟨hq, hc⟩ := hna n (List.take_subset _ _ hn)
    exact hone n hq hc
  have hfilter : parsedCandidates url doc =
      ((selectNodes doc).take 12).map (mkCandidate url) := by
    unfold parsedCandidates
    apply List.filter_eq_self.mpr
    intro s hs
    rw [bne_iff_ne]
    rw [hall s hs]
    exact hurl
  refine ⟨hone, hfilter, ?_, ?_⟩
  · rw [hfilter, List.length_map, List.length_take]
  · intro s hs
    rw [hfilter] at hs
    exact hall s hs

/-- Witness for C10 on a concrete document with one anchorless matched
node. -/
theorem c10_witness :
    parsedCandidates "https://someone.example"
        ⟨fun s => if s = ".game-column" then [⟨none, none, none, none, none, ""⟩] else [],
         []⟩ =
      ((selectNodes ⟨fun s => if s = ".game-column"
            then [⟨none, none, none, none, none, ""⟩] else [], []⟩).take 12).map
        (mkCandidate "https://someone.example") ∧
    (parsedCandidates "https://someone.example"
        ⟨fun s => if s = ".game-column" then [⟨none, none, none, none, none, ""⟩] else [],
         []⟩).length =
      min 12 (selectNodes ⟨fun s => if s = ".game-column"
            then [⟨none, none, none, none, none, ""⟩] else [], []⟩).length := by
  have h := c10_anchorless_nodes_kept "https://someone.example"
    ⟨fun s => if s = ".game-column" then [⟨none, none, none, none, none, ""⟩] else [], []⟩
    (by decide) (by decide)
  exact ⟨h.2.1, h.2.2.1⟩
